import Mathlib

/-
Verification of the country-directory repository's data model (DTOs in
src/collectors/models.py) and its renderer (src/renderer.py) against the
natural-language specification.

Modelling conventions:
* pydantic models become Lean structures; pydantic construction-time
  validation (required fields, `Field(min_length, max_length)`,
  `@validator` hooks) becomes explicit constructor functions returning
  `Except String _` (a `ValidationError` is an `Except.error`).
* Python `float` values are modelled as exact rationals `ℚ`; `int` as `ℤ`
  (population and the like), `datetime` as a record of calendar fields.
* Python `dict` preserves insertion order, so `dict[str, float]` is
  modelled as an association list `List (String × ℚ)`.
* Python `set` fields (currencies, languages) are modelled as lists; the
  renderer iterates them in an unspecified order, and no claim below
  depends on that order.
-/

set_option autoImplicit false

namespace CountryDirectory

/-- Calendar datetime, modelling Python `datetime` at the granularity the
renderer needs (`strftime` with day/month/year/hour/minute). -/
structure DateTime where
  year : ℕ
  month : ℕ
  day : ℕ
  hour : ℕ
  minute : ℕ
  second : ℕ
  deriving DecidableEq, Repr

/-- `LocationDTO` from src/collectors/models.py: capital plus alpha-2
country code. -/
structure LocationDTO where
  capital : String
  alpha2code : String
  deriving DecidableEq, Repr

/-- pydantic construction of `LocationDTO`: the field declaration
`alpha2code: str = Field(min_length=2, max_length=2)` rejects any value
whose length is not exactly 2 with a `ValidationError`. -/
def mkLocationDTO (capital : String) (alpha2code : String) : Except String LocationDTO :=
  if alpha2code.length = 2 then
    Except.ok { capital := capital, alpha2code := alpha2code }
  else
    Except.error "ValidationError"

/-- `CurrencyInfoDTO` from src/collectors/models.py. -/
structure CurrencyInfoDTO where
  code : String
  deriving DecidableEq, Repr

/-- `LanguagesInfoDTO` from src/collectors/models.py. -/
structure LanguagesInfoDTO where
  name : String
  native_name : String
  deriving DecidableEq, Repr

/-- `CountryDTO` from src/collectors/models.py. -/
structure CountryDTO where
  capital : String
  alpha2code : String
  alt_spellings : List String
  currencies : List CurrencyInfoDTO
  flag : String
  languages : List LanguagesInfoDTO
  name : String
  population : ℤ
  subregion : String
  capital_latitude : ℚ
  capital_longitude : ℚ
  capital_area : Option ℚ
  timezones : List String
  deriving DecidableEq, Repr

/-- `CurrencyRatesDTO` from src/collectors/models.py. -/
structure CurrencyRatesDTO where
  base : String
  date : String
  rates : List (String × ℚ)
  deriving DecidableEq, Repr

/-- `WeatherInfoDTO` from src/collectors/models.py. -/
structure WeatherInfoDTO where
  temp : ℚ
  pressure : ℤ
  humidity : ℤ
  wind_speed : ℚ
  description : String
  visibility : ℚ
  timezone : ℤ
  date_time : DateTime
  deriving DecidableEq, Repr

/-- `NewsDTO` from src/collectors/models.py. The declared field is
`author: Optional[str]`, and pydantic v1 runs the `validate_author` hook
only on supplied values (the validator has no `always=True`), so after
construction the field can still be `None` when the author was never
supplied; the field type here is therefore `Option String`. Construction
goes through `mkNewsDTO` below. -/
structure NewsDTO where
  title : String
  author : Option String
  description : String
  source : String
  url : String
  published_at : DateTime
  deriving DecidableEq, Repr

/-- `NewsDTO.validate_author` from src/collectors/models.py: a pydantic
`@validator("author")` hook; `None` and `""` are replaced by `"unknown"`,
every other value passes through unchanged. -/
def validate_author (value : Option String) : String :=
  match value with
  | none => "unknown"
  | some s => if s = "" then "unknown" else s

/-- pydantic v1 construction of `NewsDTO`. The `author` argument
distinguishes the field being absent (`none`) from a supplied value
(`some v`, where `v : Option String` because `Optional[str]` admits a
supplied `None`). When the field is absent it defaults to `None` and the
validator is skipped (pydantic v1 does not call validators for unsupplied
fields unless `always=True`, which `validate_author` does not set); when a
value is supplied, `validate_author` runs on it at construction time. -/
def mkNewsDTO (title : String) (author : Option (Option String)) (description : String)
    (source : String) (url : String) (published_at : DateTime) : NewsDTO :=
  { title := title
    author :=
      match author with
      | none => none
      | some v => some (validate_author v)
    description := description
    source := source
    url := url
    published_at := published_at }

/-- `LocationInfoDTO` from src/collectors/models.py: the aggregate handed
to the renderer. -/
structure LocationInfoDTO where
  location : CountryDTO
  weather : WeatherInfoDTO
  currency_rates : List (String × ℚ)
  news : Option (List NewsDTO)
  deriving DecidableEq, Repr

/-- pydantic construction of `LocationInfoDTO`: `location: CountryDTO` and
`weather: WeatherInfoDTO` are required non-optional fields, so a missing or
`None` value for either raises a `ValidationError`; `currency_rates` is a
plain dict (may be empty) and `news: Optional[list[NewsDTO]]` admits `None`
(and defaults to `None` when absent). -/
def mkLocationInfoDTO (location : Option CountryDTO) (weather : Option WeatherInfoDTO)
    (currency_rates : List (String × ℚ)) (news : Option (List NewsDTO)) :
    Except String LocationInfoDTO :=
  match location, weather with
  | some l, some w =>
      Except.ok { location := l, weather := w, currency_rates := currency_rates, news := news }
  | _, _ => Except.error "ValidationError"

/-- Zero-padded two-digit print, as Python `strftime` does for `%d`, `%m`,
`%H`, `%M`. -/
def pad2 (k : ℕ) : String :=
  if k < 10 then "0" ++ toString k else toString k

/-- Python `datetime.strftime("%d.%m.%Y %H:%M")` as used by the renderer
for weather observation time and news publication date. -/
def DateTime.strftime_dmY_HM (d : DateTime) : String :=
  pad2 d.day ++ "." ++ pad2 d.month ++ "." ++ toString d.year ++ " " ++
    pad2 d.hour ++ ":" ++ pad2 d.minute

/-- Python `sep.join(items)`. -/
def joinWith (sep : String) : List String → String
  | [] => ""
  | [s] => s
  | s :: rest => s ++ sep ++ joinWith sep rest

namespace Renderer

/-- The integer numerator (in hundredths) produced by
`Decimal(rate).quantize(exp=Decimal(0.01), rounding=ROUND_HALF_UP)` in
`Renderer._format_currency_rates` (src/renderer.py): round to the nearest
multiple of 1/100 with ties going away from zero. The Python `float` rate
is modelled as an exact rational. -/
def quantNum (q : ℚ) : ℤ :=
  if q < 0 then -⌊-q * 100 + 1 / 2⌋ else ⌊q * 100 + 1 / 2⌋

/-- Decimal printing of the quantized value with exactly two decimal
places, as `str` of the quantized `Decimal` renders it. -/
def formatQuant (q : ℚ) : String :=
  (if quantNum q < 0 then "-" else "") ++
    toString ((quantNum q).natAbs / 100) ++ "." ++ pad2 ((quantNum q).natAbs % 100)

/-- `Renderer._format_currency_rates` (src/renderer.py): for each
`(currency, rate)` entry of the aggregate's `currency_rates` dict (in
insertion order), the string `"<currency> = <quantized rate> руб."`,
joined with `", "`. -/
def format_currency_rates (rates : List (String × ℚ)) : String :=
  joinWith ", " (rates.map fun p => p.1 ++ " = " ++ formatQuant p.2 ++ " руб.")

/-- `Renderer._format_languages` (src/renderer.py): comma-joined
`"name (native_name)"` entries. -/
def format_languages (langs : List LanguagesInfoDTO) : String :=
  joinWith ", " (langs.map fun i => i.name ++ " (" ++ i.native_name ++ ")")

/-- Digit grouping of `"{:,}".format(...)` with the separator already
replaced by `"."` (the source applies `.replace(",", ".")`): a mark is
inserted after a digit exactly when the number of digits to its right is a
positive multiple of three. -/
def grp3 : List Char → List Char
  | [] => []
  | c :: cs => c :: (if cs.length % 3 = 0 ∧ cs ≠ [] then '.' :: grp3 cs else grp3 cs)

/-- `Renderer._format_population` (src/renderer.py):
`"{:,}".format(population).replace(",", ".")` — sign, then the decimal
digits of the absolute value with `"."` grouping marks. -/
def format_population (n : ℤ) : String :=
  (if n < 0 then "-" else "") ++ String.mk (grp3 (Nat.repr n.natAbs).data)

end Renderer

/-- Chunks of three, taken from the front of the list. -/
def chunks3 : List Char → List (List Char)
  | [] => []
  | [a] => [[a]]
  | [a, b] => [[a, b]]
  | a :: b :: c :: rest => [a, b, c] :: chunks3 rest

/-- Joining character chunks with a single `'.'` between adjacent
chunks. -/
def joinDots : List (List Char) → List Char
  | [] => []
  | [c] => c
  | c :: rest => c ++ '.' :: joinDots rest

/-- Modelled from the spec (for comparison with
`Renderer.format_population`): the decimal representation of a natural
number "grouped in threes with `.` as the thousands grouping mark" — the
digit list is chunked in threes starting from the right (i.e. the reversed
digit list is chunked from the left and everything re-reversed) and the
chunks are joined with `"."`. -/
def groupedFromRight (n : ℕ) : String :=
  String.mk (joinDots (((chunks3 (Nat.repr n).data.reverse).map List.reverse).reverse))

/-- One row of the renderer's news table, in source column order
(src/renderer.py, the `news_table.add_row` call). -/
structure NewsRow where
  source : String
  title : String
  author : String
  url : String
  description : String
  published_at : String
  deriving DecidableEq, Repr

/-- The news-table row built from one article. The author cell is
`f"{article.author}"`, and Python string interpolation prints a `None`
author as the literal text `"None"`. -/
def newsRowOf (a : NewsDTO) : NewsRow :=
  { source := a.source
    title := a.title
    author :=
      match a.author with
      | none => "None"
      | some s => s
    url := a.url
    description := a.description
    published_at := a.published_at.strftime_dmY_HM }

/-- The renderer's location-facts table row (src/renderer.py, the
`info_table.add_row` call). Fields the renderer passes through unformatted
(latitude, longitude, area) are kept as raw values; formatted cells hold
the produced strings. -/
structure InfoRow where
  name : String
  capital : String
  capital_latitude : ℚ
  capital_longitude : ℚ
  subregion : String
  population : String
  languages : String
  area : Option ℚ
  timezone : String
  currency_rates : String
  deriving DecidableEq, Repr

/-- The renderer's weather table row (src/renderer.py). -/
structure WeatherRow where
  temp : ℚ
  description : String
  visibility : ℚ
  wind_speed : ℚ
  date_time : String
  deriving DecidableEq, Repr

/-- The full output of `Renderer.render`: the three tables (the news table
as its list of rows, in insertion order). -/
structure RenderedOutput where
  info_row : InfoRow
  weather_row : WeatherRow
  news_rows : List NewsRow
  deriving DecidableEq, Repr

/-- `Renderer.render` (src/renderer.py). Failure points, in Python
evaluation order: `self.location_info.location.timezones[0]` raises
`IndexError` while the info row is built when `timezones` is empty, and
`for article in self.location_info.news` raises `TypeError` when `news`
is `None` (the news loop runs after the info and weather rows are
built). -/
def render (info : LocationInfoDTO) : Except String RenderedOutput :=
  match info.location.timezones, info.news with
  | [], _ => Except.error "IndexError"
  | _ :: _, none => Except.error "TypeError"
  | tz :: _, some articles =>
      Except.ok
        { info_row :=
            { name := info.location.name
              capital := info.location.capital
              capital_latitude := info.location.capital_latitude
              capital_longitude := info.location.capital_longitude
              subregion := info.location.subregion
              population := Renderer.format_population info.location.population ++ " чел."
              languages := Renderer.format_languages info.location.languages
              area := info.location.capital_area
              timezone := tz
              currency_rates := Renderer.format_currency_rates info.currency_rates }
          weather_row :=
            { temp := info.weather.temp
              description := info.weather.description
              visibility := info.weather.visibility
              wind_speed := info.weather.wind_speed
              date_time := info.weather.date_time.strftime_dmY_HM }
          news_rows := articles.foldl (fun tab a => tab ++ [newsRowOf a]) [] }

/-- Whether an `Except` computation succeeded. -/
def exceptOk {ε α : Type} : Except ε α → Bool
  | Except.ok _ => true
  | Except.error _ => false

/-- C1 counterexample: the claim's author-absent normalization fails on
the code — a `NewsDTO` constructed without supplying `author` keeps
`author = None`, because pydantic v1 skips `validate_author` for the
unsupplied field (no `always=True`); so the author field is not "never
null" after construction. -/
theorem newsDTO_absent_author_stays_none :
    (mkNewsDTO "t" none "d" "s" "u" ⟨2023, 3, 30, 12, 42, 34⟩).author = none :=
  rfl

/-- C1 (amended): whenever the `author` field is supplied at construction
(including a supplied `None` or `""`), `validate_author` normalizes it —
the constructed author is then non-null, never the empty string, and
equals `"unknown"` in the `None`/`""` cases; but a construction that omits
the field entirely keeps `author = None`, the validator being skipped for
unsupplied fields. -/
theorem newsDTO_author_normalized_when_supplied (title : String) (v : Option String)
    (description source url : String) (published_at : DateTime) :
    (mkNewsDTO title (some v) description source url published_at).author ≠ none ∧
    (mkNewsDTO title (some v) description source url published_at).author ≠ some "" ∧
    ((v = none ∨ v = some "") →
      (mkNewsDTO title (some v) description source url published_at).author = some "unknown") ∧
    (mkNewsDTO title none description source url published_at).author = none := by
  refine ⟨by simp [mkNewsDTO], ?_, ?_, rfl⟩
  · match v with
    | none => simp [mkNewsDTO, validate_author]
    | some s =>
        by_cases h : s = "" <;> simp [mkNewsDTO, validate_author, h]
  · rintro (h | h) <;> subst h <;> simp [mkNewsDTO, validate_author]

/-- C1 witness: a concrete construction with a supplied `author=None` is
normalized to `"unknown"`. -/
theorem newsDTO_author_normalized_when_supplied_witness :
    (mkNewsDTO "t" (some none) "d" "s" "u" ⟨2023, 3, 30, 12, 42, 34⟩).author = some "unknown" :=
  (newsDTO_author_normalized_when_supplied "t" none "d" "s" "u"
    ⟨2023, 3, 30, 12, 42, 34⟩).2.2.1 (Or.inl rfl)

/-- C2: constructing a `LocationInfoDTO` succeeds exactly when both
`location` and `weather` are supplied non-null; in particular it fails when
either is missing/None, and succeeds even with an empty `currency_rates`
mapping and absent (`None`) `news`. -/
theorem locationInfoDTO_requires_location_weather (location : Option CountryDTO)
    (weather : Option WeatherInfoDTO) (currency_rates : List (String × ℚ))
    (news : Option (List NewsDTO)) :
    exceptOk (mkLocationInfoDTO location weather currency_rates news) = true ↔
      (location.isSome = true ∧ weather.isSome = true) := by
  match location, weather with
  | none, none => simp [mkLocationInfoDTO, exceptOk]
  | none, some w => simp [mkLocationInfoDTO, exceptOk]
  | some l, none => simp [mkLocationInfoDTO, exceptOk]
  | some l, some w => simp [mkLocationInfoDTO, exceptOk]

/-- C3: constructing a `LocationDTO` succeeds exactly when the supplied
`alpha2code` has length 2; hence every constructed instance has a country
code of length exactly 2, and any other length fails validation. -/
theorem locationDTO_alpha2code_length (capital alpha2code : String) :
    (exceptOk (mkLocationDTO capital alpha2code) = true ↔ alpha2code.length = 2) ∧
    (∀ dto : LocationDTO, mkLocationDTO capital alpha2code = Except.ok dto →
      dto.alpha2code.length = 2) := by
  constructor
  · by_cases h : alpha2code.length = 2 <;> simp [mkLocationDTO, exceptOk, h]
  · intro dto hdto
    by_cases h : alpha2code.length = 2
    · simp only [mkLocationDTO, if_pos h, Except.ok.injEq] at hdto
      subst hdto
      exact h
    · simp [mkLocationDTO, if_neg h] at hdto

/-- Unfolding equation of `Renderer.grp3` on a cons cell. -/
theorem grp3_cons (c : Char) (cs : List Char) :
    Renderer.grp3 (c :: cs) =
      c :: (if cs.length % 3 = 0 ∧ cs ≠ [] then '.' :: Renderer.grp3 cs else Renderer.grp3 cs) :=
  rfl

/-- Peeling three digits off the right of a non-empty digit list inserts
exactly one grouping mark before them. -/
theorem grp3_append_three (front : List Char) (a b c : Char) (h : front ≠ []) :
    Renderer.grp3 (front ++ [a, b, c]) = Renderer.grp3 front ++ '.' :: [a, b, c] := by
  induction front with
  | nil => exact absurd rfl h
  | cons x front' IH =>
    cases front' with
    | nil => simp [Renderer.grp3]
    | cons y front'' =>
      have hne : y :: front'' ≠ [] := by simp
      have key := IH hne
      simp only [List.cons_append] at key
      rw [List.cons_append, grp3_cons, grp3_cons]
      have hlen : ((y :: front'') ++ [a, b, c]).length % 3 = (y :: front'').length % 3 := by
        simp only [List.length_append, List.length_cons, List.length_nil]
        omega
      by_cases hmod : (y :: front'').length % 3 = 0
      · rw [if_pos ⟨hlen.trans hmod, by simp⟩, if_pos ⟨hmod, hne⟩]
        simp [key]
      · rw [if_neg (by rw [hlen]; exact fun hc => hmod hc.1),
            if_neg (fun hc => hmod hc.1)]
        simp [key]

/-- Appending one chunk to a non-empty chunk list appends one mark and the
chunk to the join. -/
theorem joinDots_append_single (xs : List (List Char)) (y : List Char) (h : xs ≠ []) :
    joinDots (xs ++ [y]) = joinDots xs ++ '.' :: y := by
  induction xs with
  | nil => exact absurd rfl h
  | cons x xs' IH =>
    cases xs' with
    | nil => simp [joinDots]
    | cons z zs =>
      have hz := IH (by simp)
      simp only [List.cons_append] at hz ⊢
      simp [joinDots, hz]

/-- `chunks3` of a non-empty list is non-empty. -/
theorem chunks3_ne_nil (ds : List Char) (h : ds ≠ []) : chunks3 ds ≠ [] := by
  match ds with
  | [] => exact absurd rfl h
  | [a] => simp [chunks3]
  | [a, b] => simp [chunks3]
  | a :: b :: c :: rest => simp [chunks3]

/-- The renderer's left-to-right grouping insertion agrees with chunking
the digits in threes from the right and joining the chunks with `'.'`. -/
theorem grp3_eq_grouped (ds : List Char) :
    Renderer.grp3 ds = joinDots (((chunks3 ds.reverse).map List.reverse).reverse) := by
  have H : ∀ n (ds : List Char), ds.length = n →
      Renderer.grp3 ds = joinDots (((chunks3 ds.reverse).map List.reverse).reverse) := by
    intro n
    induction n using Nat.strong_induction_on with
    | _ n IH =>
      intro ds hds
      by_cases hlen : ds.length ≤ 3
      · rcases ds with _ | ⟨a, _ | ⟨b, _ | ⟨c, _ | ⟨d, rest⟩⟩⟩⟩
        · rfl
        · simp [Renderer.grp3, chunks3, joinDots]
        · simp [Renderer.grp3, chunks3, joinDots]
        · simp [Renderer.grp3, chunks3, joinDots]
        · simp at hlen
      · rcases hr : ds.reverse with _ | ⟨x, _ | ⟨y, _ | ⟨z, rest⟩⟩⟩
        · exfalso
          have h0 : ds.length = 0 := by simpa using congrArg List.length hr
          omega
        · exfalso
          have h1 : ds.length = 1 := by simpa using congrArg List.length hr
          omega
        · exfalso
          have h2 : ds.length = 2 := by simpa using congrArg List.length hr
          omega
        · have hlds : ds.length = rest.length + 3 := by
            have h3 := congrArg List.length hr
            simp at h3
            omega
          have hrest : rest ≠ [] := by
            intro hO
            rw [hO] at hlds
            simp at hlds
            omega
          have hds2 : ds = rest.reverse ++ [z, y, x] := by
            have h4 := congrArg List.reverse hr
            simpa using h4
          rw [hds2, grp3_append_three _ _ _ _ (by simpa using hrest)]
          have hmap : ((chunks3 (x :: y :: z :: rest)).map List.reverse).reverse
              = ((chunks3 rest).map List.reverse).reverse ++ [[z, y, x]] := by
            rw [show chunks3 (x :: y :: z :: rest) = [x, y, z] :: chunks3 rest from rfl]
            simp
          rw [hmap, joinDots_append_single _ _
            (by
              intro hO
              apply chunks3_ne_nil rest hrest
              simpa using hO)]
          have hIH := IH rest.length (by omega) rest.reverse (by simp)
          rw [List.reverse_reverse] at hIH
          rw [hIH]
  exact H ds.length ds rfl

/-- C5: the currency-rate formatting renders each `(code, rate)` entry as
`"<code> = <rate quantized to 2 decimal places> руб."` joined with `", "`;
the entry `("EUR", 0.016503)` renders as `"EUR = 0.02 руб."`, and the
quantized numerator is the half-up rounding of the rate: for `0 ≤ q` it is
the integer `n` with `n - 1/2 ≤ 100·q < n + 1/2` (ties go up). -/
theorem currency_rates_half_up :
    Renderer.format_currency_rates [("EUR", (16503 / 1000000 : ℚ))] = "EUR = 0.02 руб." ∧
    ∀ q : ℚ, 0 ≤ q →
      ((Renderer.quantNum q : ℚ) - 1 / 2 ≤ q * 100 ∧
        q * 100 < (Renderer.quantNum q : ℚ) + 1 / 2) := by
  constructor
  · have hq : Renderer.quantNum (16503 / 1000000 : ℚ) = 2 := by
      rw [Renderer.quantNum, if_neg (by norm_num)]
      norm_num
    simp only [Renderer.format_currency_rates, List.map, joinWith, Renderer.formatQuant, hq]
    norm_num [pad2]
    rfl
  · intro q hq0
    rw [Renderer.quantNum, if_neg (not_lt.mpr hq0)]
    constructor
    · have hfl := Int.floor_le (q * 100 + 1 / 2)
      linarith
    · have hfl := Int.lt_floor_add_one (q * 100 + 1 / 2)
      push_cast at hfl
      linarith

/-- C5 witness: the half-up bounds instantiated at the concrete rate
0.016503. -/
theorem currency_rates_half_up_witness :
    (0 : ℚ) ≤ 16503 / 1000000 ∧
      ((Renderer.quantNum (16503 / 1000000 : ℚ) : ℚ) - 1 / 2 ≤ (16503 / 1000000 : ℚ) * 100 ∧
        (16503 / 1000000 : ℚ) * 100 < (Renderer.quantNum (16503 / 1000000 : ℚ) : ℚ) + 1 / 2) :=
  ⟨by norm_num, currency_rates_half_up.2 (16503 / 1000000 : ℚ) (by norm_num)⟩

/-- C6: for every non-negative population the renderer's population
formatting produces the decimal digits grouped in threes from the right
with `"."` as the grouping mark; in particular 28875 renders as
`"28.875"`. -/
theorem population_grouped_in_threes :
    (∀ n : ℤ, 0 ≤ n → Renderer.format_population n = groupedFromRight n.toNat) ∧
    Renderer.format_population 28875 = "28.875" := by
  constructor
  · intro n hn
    have h1 : ¬ n < 0 := not_lt.mpr hn
    have h2 : n.natAbs = n.toNat := by omega
    rw [Renderer.format_population, if_neg h1, h2, groupedFromRight, grp3_eq_grouped]
    rfl
  · decide

/-- C6 witness: the general grouping statement instantiated at
population 28875. -/
theorem population_grouped_in_threes_witness :
    (0 : ℤ) ≤ 28875 ∧ Renderer.format_population 28875 = groupedFromRight (28875 : ℤ).toNat :=
  ⟨by decide, population_grouped_in_threes.1 28875 (by decide)⟩

/-- An injective-by-construction numeric encoding of a string, used to
model Python's value-derived hashing of field tuples. -/
def strCode (s : String) : ℕ :=
  s.data.foldl (fun a c => a * 1114112 + c.toNat + 1) 0

/-- `HashableBaseModel.__hash__` (src/collectors/models.py):
`hash((type(self),) + tuple(self.__dict__.values()))` — a hash computed
purely from the model's current field values. For `LocationDTO` the field
tuple is `(capital, alpha2code)`; the opaque interpreter-level `hash` is
modelled by a concrete pure function of those fields. -/
def LocationDTO.hashModel (d : LocationDTO) : ℕ :=
  strCode d.capital * 1114112 + strCode d.alpha2code

/-- pydantic `BaseModel.__setattr__` under the default model config:
neither `HashableBaseModel` nor `LocationDTO` declares a config forbidding
mutation (v1 `allow_mutation = False` / v2 `frozen = True`), so the
assignment `instance.capital = v` is accepted and overwrites the field.
The post-state of the in-place mutation is modelled as the returned
record. -/
def LocationDTO.assign_capital (d : LocationDTO) (v : String) : LocationDTO :=
  { d with capital := v }

/-- C4 counterexample: `LocationDTO` is not an immutable value type — the
inherited pydantic field assignment is accepted under the class's default
config and changes a constructed instance's `capital` field, so "no
operation can change a constructed instance's fields" fails at the
concrete instance `LocationDTO(capital="Mariehamn", alpha2code="AX")`. -/
theorem locationDTO_not_immutable :
    (LocationDTO.assign_capital ⟨"Mariehamn", "AX"⟩ "Moscow").capital ≠
      (⟨"Mariehamn", "AX"⟩ : LocationDTO).capital ∧
    LocationDTO.assign_capital ⟨"Mariehamn", "AX"⟩ "Moscow" ≠ (⟨"Mariehamn", "AX"⟩ : LocationDTO) ∧
    (LocationDTO.assign_capital ⟨"Mariehamn", "AX"⟩ "Moscow").hashModel ≠
      (⟨"Mariehamn", "AX"⟩ : LocationDTO).hashModel := by
  refine ⟨by decide, by decide, by decide⟩

/-- C4 (amended): `LocationDTO` has structural equality and a purely
field-derived hash — two instances with equal `capital` and `alpha2code`
are equal, have equal hashes, and are interchangeable as list/set elements
and hence as cache keys. (Immutability, however, is not enforced: see the
counterexample.) -/
theorem locationDTO_value_equality (a b : LocationDTO)
    (hcap : a.capital = b.capital) (hcode : a.alpha2code = b.alpha2code) :
    a = b ∧ a.hashModel = b.hashModel ∧
    (∀ l : List LocationDTO, a ∈ l ↔ b ∈ l) ∧
    (∀ s : Finset LocationDTO, a ∈ s ↔ b ∈ s) := by
  have hab : a = b := by
    cases a
    cases b
    cases hcap
    cases hcode
    rfl
  subst hab
  exact ⟨rfl, rfl, fun _ => Iff.rfl, fun _ => Iff.rfl⟩

/-- C4 witness: the value-equality facts at two field-equal concrete
instances. -/
theorem locationDTO_value_equality_witness :
    (⟨"Mariehamn", "AX"⟩ : LocationDTO) = ⟨"Mariehamn", "AX"⟩ ∧
    (⟨"Mariehamn", "AX"⟩ : LocationDTO).hashModel = (⟨"Mariehamn", "AX"⟩ : LocationDTO).hashModel ∧
    (∀ l : List LocationDTO, (⟨"Mariehamn", "AX"⟩ : LocationDTO) ∈ l ↔
      (⟨"Mariehamn", "AX"⟩ : LocationDTO) ∈ l) ∧
    (∀ s : Finset LocationDTO, (⟨"Mariehamn", "AX"⟩ : LocationDTO) ∈ s ↔
      (⟨"Mariehamn", "AX"⟩ : LocationDTO) ∈ s) :=
  locationDTO_value_equality ⟨"Mariehamn", "AX"⟩ ⟨"Mariehamn", "AX"⟩ rfl rfl

/-- Folding `add_row` over the article list appends one row per article. -/
theorem foldl_addrow_eq_map (arts : List NewsDTO) (t : List NewsRow) :
    arts.foldl (fun tab a => tab ++ [newsRowOf a]) t = t ++ arts.map newsRowOf := by
  induction arts generalizing t with
  | nil => simp
  | cons a rest IH => simp [IH]

/-- C7: when the aggregate's news sequence is present and `render`
succeeds, the news table holds exactly one row per article, in the order
of the aggregate's news sequence. -/
theorem render_news_rows_in_order (info : LocationInfoDTO) (arts : List NewsDTO)
    (out : RenderedOutput) (hnews : info.news = some arts)
    (hok : render info = Except.ok out) :
    out.news_rows = arts.map newsRowOf ∧ out.news_rows.length = arts.length := by
  rcases htz : info.location.timezones with _ | ⟨tz, tzrest⟩
  · simp [render, htz, hnews] at hok
  · simp only [render, htz, hnews] at hok
    injection hok with h
    subst h
    constructor
    · show arts.foldl (fun tab a => tab ++ [newsRowOf a]) [] = arts.map newsRowOf
      rw [foldl_addrow_eq_map]
      rfl
    · show (arts.foldl (fun tab a => tab ++ [newsRowOf a]) []).length = arts.length
      rw [foldl_addrow_eq_map]
      simp

/-- C8: when the location's timezone list is non-empty and `render`
succeeds, the location-facts row's timezone cell is the first timezone
entry. -/
theorem render_timezone_is_head (info : LocationInfoDTO) (tz : String)
    (tzrest : List String) (out : RenderedOutput)
    (htz : info.location.timezones = tz :: tzrest)
    (hok : render info = Except.ok out) :
    out.info_row.timezone = tz := by
  rcases hnews : info.news with _ | arts
  · simp [render, htz, hnews] at hok
  · simp only [render, htz, hnews] at hok
    injection hok with h
    subst h
    rfl

/-- C10: `render` fails on every aggregate whose `news` is `None` (the
unconditional `for article in self.location_info.news` makes the error
branch reachable although the field's type permits `None`), and it
succeeds only when `news` is a present list. -/
theorem render_requires_news (info : LocationInfoDTO) :
    (info.news = none → exceptOk (render info) = false) ∧
    (∀ out, render info = Except.ok out → info.news.isSome = true) := by
  constructor
  · intro hn
    rcases htz : info.location.timezones with _ | ⟨tz, tzrest⟩ <;>
      simp [render, htz, hn, exceptOk]
  · intro out hok
    rcases hnews : info.news with _ | arts
    · exfalso
      rcases htz : info.location.timezones with _ | ⟨tz, tzrest⟩ <;>
        simp [render, htz, hnews] at hok
    · rfl

namespace WeatherCollector

/-- Modelled from the spec: the repository's `WeatherCollector`
(src/collectors/collector.py is not among the provided sources; only its
tests and the spec describe it). Per the spec, `collect(locationKeys)`
performs a fetch-and-cache-refresh cycle for each requested location key —
writing the freshly fetched payload over any prior cache entry for that
key — while the awaited call itself returns no retrievable artifact (the
test `test_collect_weather` asserts `await collector.collect(...) is
None`). The external fetch capability is a parameter; the per-location
cache is an association list in which the most recent write is found
first. -/
def collect (fetch : LocationDTO → WeatherInfoDTO) (keys : List LocationDTO)
    (cache : List (LocationDTO × WeatherInfoDTO)) :
    Option WeatherInfoDTO × List (LocationDTO × WeatherInfoDTO) :=
  (none, keys.foldl (fun c k => (k, fetch k) :: c) cache)

/-- Cache read for one location key: the most recently written entry. -/
def lookup (k : LocationDTO) (c : List (LocationDTO × WeatherInfoDTO)) :
    Option WeatherInfoDTO :=
  (c.find? (fun p => decide (p.1 = k))).map Prod.snd

end WeatherCollector

namespace CurrencyCollector

/-- Modelled from the spec: `CurrencyRatesCollector.collect` fetches the
process-wide rate table and persists it as the cache (queryable state). -/
def collect (fetch : Unit → CurrencyRatesDTO) (_cache : Option CurrencyRatesDTO) :
    Option CurrencyRatesDTO :=
  some (fetch ())

/-- Modelled from the spec: `CurrencyRatesCollector.read` returns the
persisted rate table. -/
def read (cache : Option CurrencyRatesDTO) : Option CurrencyRatesDTO :=
  cache

end CurrencyCollector

/-- A fold of cache writes for keys not containing `k` leaves the lookup
of `k` unchanged. -/
theorem lookup_foldl_not_mem (fetch : LocationDTO → WeatherInfoDTO)
    (keys : List LocationDTO) (cache : List (LocationDTO × WeatherInfoDTO))
    (k : LocationDTO) (hk : k ∉ keys) :
    WeatherCollector.lookup k (keys.foldl (fun c k' => (k', fetch k') :: c) cache) =
      WeatherCollector.lookup k cache := by
  induction keys generalizing cache with
  | nil => rfl
  | cons k0 rest IH =>
    simp only [List.foldl_cons]
    rw [IH _ (fun h => hk (List.mem_cons_of_mem _ h))]
    have hne : ¬(k0 = k) := fun h => hk (h ▸ List.mem_cons_self _ _)
    simp [WeatherCollector.lookup, List.find?_cons, hne]

/-- After the fold of cache writes, every requested key reads back its
freshly fetched payload. -/
theorem lookup_foldl_mem (fetch : LocationDTO → WeatherInfoDTO)
    (keys : List LocationDTO) (cache : List (LocationDTO × WeatherInfoDTO))
    (k : LocationDTO) (hk : k ∈ keys) :
    WeatherCollector.lookup k (keys.foldl (fun c k' => (k', fetch k') :: c) cache) =
      some (fetch k) := by
  induction keys generalizing cache with
  | nil => cases hk
  | cons k0 rest IH =>
    simp only [List.foldl_cons]
    by_cases hmem : k ∈ rest
    · exact IH _ hmem
    · rcases List.mem_cons.mp hk with h | h
      · subst h
        rw [lookup_foldl_not_mem _ _ _ _ hmem]
        simp [WeatherCollector.lookup, List.find?_cons]
      · exact absurd h hmem

/-- C9: the Weather collector's `collect` yields no retrievable result
value (`None`) for every requested key set while still refreshing the
cache (every requested key afterwards reads back the freshly fetched
payload) — in contrast to the Currency collection, whose persisted state
is queryable by a subsequent `read`. -/
theorem weather_collect_returns_none (fetch : LocationDTO → WeatherInfoDTO)
    (keys : List LocationDTO) (cache : List (LocationDTO × WeatherInfoDTO)) :
    (WeatherCollector.collect fetch keys cache).1 = none ∧
    (∀ k, k ∈ keys →
      WeatherCollector.lookup k (WeatherCollector.collect fetch keys cache).2 =
        some (fetch k)) ∧
    (∀ (cfetch : Unit → CurrencyRatesDTO) (ccache : Option CurrencyRatesDTO),
      CurrencyCollector.read (CurrencyCollector.collect cfetch ccache) = some (cfetch ())) :=
  ⟨rfl, fun k hk => lookup_foldl_mem fetch keys cache k hk, fun _ _ => rfl⟩

/-- Concrete country record (the Åland Islands example from the model's
docstrings), used to instantiate the theorems above. -/
def sampleCountry : CountryDTO :=
  { capital := "Mariehamn"
    alpha2code := "AX"
    alt_spellings := ["AX", "Aaland", "Aland", "Ahvenanmaa"]
    currencies := [{ code := "EUR" }]
    flag := "http://assets.promptapi.com/flags/AX.svg"
    languages := [{ name := "Swedish", native_name := "svenska" }]
    name := "Aland Islands"
    population := 28875
    subregion := "Northern Europe"
    capital_latitude := 19.9348
    capital_longitude := 60.0973
    capital_area := some 1580
    timezones := ["UTC+02:00"] }

/-- Concrete weather snapshot (the docstring example). -/
def sampleWeather : WeatherInfoDTO :=
  { temp := 13.92
    pressure := 1023
    humidity := 54
    wind_speed := 4.63
    description := "scattered clouds"
    visibility := 10000
    timezone := 3600
    date_time := ⟨2023, 3, 30, 12, 23, 34⟩ }

/-- Concrete news article. -/
def sampleNews1 : NewsDTO :=
  { title := "Title"
    author := some "Ion"
    description := "Desc"
    source := "Adevarul.ro"
    url := "https://example"
    published_at := ⟨2023, 3, 30, 12, 42, 34⟩ }

/-- Concrete aggregate with present news and an empty rate table. -/
def sampleInfo : LocationInfoDTO :=
  { location := sampleCountry
    weather := sampleWeather
    currency_rates := []
    news := some [sampleNews1] }

/-- The same aggregate with `news = None`. -/
def sampleInfoNoNews : LocationInfoDTO :=
  { location := sampleCountry
    weather := sampleWeather
    currency_rates := []
    news := none }

/-- The output `render` produces on `sampleInfo`. -/
def sampleOut : RenderedOutput :=
  { info_row :=
      { name := "Aland Islands"
        capital := "Mariehamn"
        capital_latitude := 19.9348
        capital_longitude := 60.0973
        subregion := "Northern Europe"
        population := "28.875 чел."
        languages := "Swedish (svenska)"
        area := some 1580
        timezone := "UTC+02:00"
        currency_rates := "" }
    weather_row :=
      { temp := 13.92
        description := "scattered clouds"
        visibility := 10000
        wind_speed := 4.63
        date_time := "30.03.2023 12:23" }
    news_rows :=
      [{ source := "Adevarul.ro"
         title := "Title"
         author := "Ion"
         url := "https://example"
         description := "Desc"
         published_at := "30.03.2023 12:42" }] }

/-- C2 witness: construction succeeds at concrete non-null location and
weather with empty rates and absent news. -/
theorem locationInfoDTO_requires_location_weather_witness :
    exceptOk (mkLocationInfoDTO (some sampleCountry) (some sampleWeather) [] none) = true :=
  (locationInfoDTO_requires_location_weather (some sampleCountry) (some sampleWeather)
    [] none).mpr ⟨rfl, rfl⟩

/-- C3 witness: the constructed concrete instance has a length-2 country
code. -/
theorem locationDTO_alpha2code_length_witness :
    (⟨"Mariehamn", "AX"⟩ : LocationDTO).alpha2code.length = 2 :=
  (locationDTO_alpha2code_length "Mariehamn" "AX").2 ⟨"Mariehamn", "AX"⟩ rfl

/-- C7 witness: the rendered news table of the concrete aggregate is the
row list of its one article. -/
theorem render_news_rows_in_order_witness :
    sampleOut.news_rows = [sampleNews1].map newsRowOf ∧
    sampleOut.news_rows.length = [sampleNews1].length :=
  render_news_rows_in_order sampleInfo [sampleNews1] sampleOut rfl rfl

/-- C8 witness: the rendered timezone cell of the concrete aggregate is
its first timezone entry. -/
theorem render_timezone_is_head_witness :
    sampleOut.info_row.timezone = "UTC+02:00" :=
  render_timezone_is_head sampleInfo "UTC+02:00" [] sampleOut rfl rfl

/-- C10 witness: `render` fails on the concrete aggregate constructed with
`news = None`. -/
theorem render_requires_news_witness :
    exceptOk (render sampleInfoNoNews) = false :=
  (render_requires_news sampleInfoNoNews).1 rfl

/-- C9 witness: at a concrete fetch, key set and empty cache, the collect
call returns `None` while the key reads back the fetched payload. -/
theorem weather_collect_returns_none_witness :
    (WeatherCollector.collect (fun _ => sampleWeather) [⟨"Moscow", "RU"⟩] []).1 = none ∧
    WeatherCollector.lookup ⟨"Moscow", "RU"⟩
      (WeatherCollector.collect (fun _ => sampleWeather) [⟨"Moscow", "RU"⟩] []).2 =
      some sampleWeather :=
  ⟨(weather_collect_returns_none (fun _ => sampleWeather) [⟨"Moscow", "RU"⟩] []).1,
   (weather_collect_returns_none (fun _ => sampleWeather) [⟨"Moscow", "RU"⟩] []).2.1
     ⟨"Moscow", "RU"⟩ (List.mem_singleton.mpr rfl)⟩

end CountryDirectory
